import Mathlib

/-!
# Verification of the orbital propagation-and-validation core

Shallow embedding of `src/constants.py`, `src/orbital_mechanics.py` and
`src/simulation.py`.

The numerical code is embedded twice, from a single set of generic
definitions instantiated at two scalar types:

* `ℝ` — the ideal-arithmetic reading (every float operation read as the
  exact real operation, `np.linalg.norm` read as the exact Euclidean norm);
* `F64` — an IEEE-754-style scalar with the special values `+inf`, `-inf`
  and `nan`, used to settle the claims that are about the code's behaviour
  on division by zero and on non-finite trajectories.  `F64` propagates
  the IEEE special values exactly; its finite arithmetic is exact rational
  arithmetic (rounding is irrelevant for every concrete input evaluated in
  this development, where all finite intermediate values are exact).

A separate model `Q.fl64` of binary64 round-to-nearest-even on the exact
rational scalar `Q` is used for the one claim that is specifically about
floating-point drift in the time axis of `runge_kutta_4`.
-/

/-- A 3-component vector, modelling a numpy array `[x, y, z]`. -/
structure Vec3 (α : Type) where
  x : α
  y : α
  z : α
deriving DecidableEq, Repr

/-- A 6-component state vector `[rx, ry, rz, vx, vy, vz]`, modelling the
numpy array produced by `np.hstack((r_vector, v_vector))`: `r` holds
components 0-2 and `v` holds components 3-5. -/
structure State6 (α : Type) where
  r : Vec3 α
  v : Vec3 α
deriving DecidableEq, Repr

/-- Elementwise vector addition (numpy `+` on 3-arrays). -/
instance {α : Type} [Add α] : Add (Vec3 α) :=
  ⟨fun a b => ⟨a.x + b.x, a.y + b.y, a.z + b.z⟩⟩

/-- Elementwise vector subtraction (numpy `-` on 3-arrays). -/
instance {α : Type} [Sub α] : Sub (Vec3 α) :=
  ⟨fun a b => ⟨a.x - b.x, a.y - b.y, a.z - b.z⟩⟩

/-- Scalar-times-vector broadcasting (numpy `c * arr` on 3-arrays). -/
instance {α : Type} [Mul α] : HMul α (Vec3 α) (Vec3 α) :=
  ⟨fun c a => ⟨c * a.x, c * a.y, c * a.z⟩⟩

/-- Elementwise addition of 6-component states (numpy `+` on 6-arrays). -/
instance {α : Type} [Add α] : Add (State6 α) :=
  ⟨fun a b => ⟨a.r + b.r, a.v + b.v⟩⟩

/-- Scalar-times-state broadcasting (numpy `c * arr` on 6-arrays). -/
instance {α : Type} [Mul α] : HMul α (State6 α) (State6 α) :=
  ⟨fun c a => ⟨c * a.r, c * a.v⟩⟩

@[simp] theorem Vec3.add_x {α : Type} [Add α] (a b : Vec3 α) : (a + b).x = a.x + b.x := rfl

@[simp] theorem Vec3.add_y {α : Type} [Add α] (a b : Vec3 α) : (a + b).y = a.y + b.y := rfl

@[simp] theorem Vec3.add_z {α : Type} [Add α] (a b : Vec3 α) : (a + b).z = a.z + b.z := rfl

@[simp] theorem Vec3.sub_x {α : Type} [Sub α] (a b : Vec3 α) : (a - b).x = a.x - b.x := rfl

@[simp] theorem Vec3.sub_y {α : Type} [Sub α] (a b : Vec3 α) : (a - b).y = a.y - b.y := rfl

@[simp] theorem Vec3.sub_z {α : Type} [Sub α] (a b : Vec3 α) : (a - b).z = a.z - b.z := rfl

@[simp] theorem Vec3.smul_x {α : Type} [Mul α] (c : α) (a : Vec3 α) : (c * a).x = c * a.x := rfl

@[simp] theorem Vec3.smul_y {α : Type} [Mul α] (c : α) (a : Vec3 α) : (c * a).y = c * a.y := rfl

@[simp] theorem Vec3.smul_z {α : Type} [Mul α] (c : α) (a : Vec3 α) : (c * a).z = c * a.z := rfl

@[simp] theorem State6.add_r {α : Type} [Add α] (a b : State6 α) : (a + b).r = a.r + b.r := rfl

@[simp] theorem State6.add_v {α : Type} [Add α] (a b : State6 α) : (a + b).v = a.v + b.v := rfl

@[simp] theorem State6.smul_r {α : Type} [Mul α] (c : α) (a : State6 α) : (c * a).r = c * a.r := rfl

@[simp] theorem State6.smul_v {α : Type} [Mul α] (c : α) (a : State6 α) : (c * a).v = c * a.v := rfl

/-- Square-root operation of the scalar type, modelling the square root
taken inside `np.linalg.norm`. -/
class SqrtOp (α : Type) where
  sqrt : α → α

noncomputable instance : SqrtOp ℝ := ⟨Real.sqrt⟩

section GenericEmbedding

variable {α : Type} [Add α] [Sub α] [Neg α] [Mul α] [Div α] [Pow α ℕ]
variable [OfScientific α] [NatCast α] [SqrtOp α]

/-- `src/constants.py`: `GM_EARTH = 398600.4418` (km³/s²). -/
def GM_EARTH : α := 398600.4418

/-- `src/constants.py`: `RADIUS_EARTH = 6378.137` (km). -/
def RADIUS_EARTH : α := 6378.137

/-- `src/constants.py`: `J2 = 1.08263e-3` (dimensionless). -/
def J2 : α := 1.08263e-3

/-- `np.linalg.norm` on a 3-vector: the square root of the sum of the
squares of the components. -/
def norm3 (v : Vec3 α) : α := SqrtOp.sqrt (v.x ^ 2 + v.y ^ 2 + v.z ^ 2)

/-- `src/orbital_mechanics.py`, `calculate_acceleration`: total acceleration
acting on the satellite, Keplerian central gravity plus the J2 perturbation,
translated line by line from the source. -/
def calculate_acceleration (r_vector : Vec3 α) : Vec3 α :=
  let r_norm := norm3 r_vector
  let x := r_vector.x
  let y := r_vector.y
  let z := r_vector.z
  let a_kepler := (-GM_EARTH / (r_norm ^ 3) : α) * r_vector
  let k_j2 : α := 1.5 * J2 * GM_EARTH * (RADIUS_EARTH ^ 2) / (r_norm ^ 5)
  let z2 := z ^ 2
  let r2 := r_norm ^ 2
  let ax_j2 := k_j2 * x * (5.0 * z2 / r2 - 1.0)
  let ay_j2 := k_j2 * y * (5.0 * z2 / r2 - 1.0)
  let az_j2 := k_j2 * z * (5.0 * z2 / r2 - 3.0)
  let a_j2 : Vec3 α := ⟨ax_j2, ay_j2, az_j2⟩
  a_kepler + a_j2

/-- `src/orbital_mechanics.py`, `get_derivatives`: the derivative function
`f(t, y)` of the ODE system.  Unpacks the state into position
(`state[0:3]`) and velocity (`state[3:6]`) and returns
`np.hstack((v_vector, a_vector))`.  The time argument `t` is accepted but
unused, as in the source. -/
def get_derivatives (t : α) (state : State6 α) : State6 α :=
  let r_vector := state.r
  let v_vector := state.v
  let a_vector := calculate_acceleration r_vector
  { r := v_vector, v := a_vector }

/-- The value of `time_series[i]` in `runge_kutta_4`
(`src/orbital_mechanics.py`): `time_series[0] = 0` from `np.zeros`, and the
loop sets `time_series[i + 1] = t_current + delta_t` where
`t_current = time_series[i]` — repeated addition of `delta_t`. -/
def time_series (delta_t : α) : Nat → α
  | 0 => 0.0
  | i + 1 => time_series delta_t i + delta_t

/-- The value of `state_history[i]` in `runge_kutta_4`
(`src/orbital_mechanics.py`): row 0 is `state_initial`, and each loop
iteration computes `k1`, `k2`, `k3`, `k4` and the weighted-average update,
translated line by line from the loop body. -/
def state_history (state_initial : State6 α) (delta_t : α) : Nat → State6 α
  | 0 => state_initial
  | i + 1 =>
    let state_current := state_history state_initial delta_t i
    let t_current := time_series delta_t i
    let k1 := delta_t * get_derivatives t_current state_current
    let k2 := delta_t *
      get_derivatives (t_current + 0.5 * delta_t) (state_current + (0.5 : α) * k1)
    let k3 := delta_t *
      get_derivatives (t_current + 0.5 * delta_t) (state_current + (0.5 : α) * k2)
    let k4 := delta_t * get_derivatives (t_current + delta_t) (state_current + k3)
    state_current + (1.0 / 6.0 : α) * (k1 + (2.0 : α) * k2 + (2.0 : α) * k3 + k4)

/-- `src/orbital_mechanics.py`, `runge_kutta_4`: returns the pair
`(time_series, state_history)` as lists of `num_steps + 1` samples
(the arrays are pre-allocated with `num_steps + 1` rows and every row is
written exactly once). -/
def runge_kutta_4 (state_initial : State6 α) (delta_t : α) (num_steps : Nat) :
    List α × List (State6 α) :=
  ((List.range (num_steps + 1)).map (time_series delta_t),
   (List.range (num_steps + 1)).map (state_history state_initial delta_t))

end GenericEmbedding

/-!
## A kernel-computable exact rational scalar

The library rational type normalises through definitions that the kernel
cannot reduce, so concrete evaluations of the models below would not go
through `decide` or `rfl`.  `Q` is a small exact rational type whose every
operation is built from integer arithmetic and fuelled structural
recursion, so that all concrete computations in this file reduce inside
the kernel.  Every `Q` produced by `Q.mk0` (and hence by every operation
below) is normalised: positive denominator, numerator and denominator
coprime.  `Q.val` maps it to the library rationals. -/
structure Q where
  num : ℤ
  den : ℤ
deriving DecidableEq, Repr

namespace Q

/-- Euclidean algorithm with explicit fuel (structural recursion that the
kernel reduces). -/
def gcdFuel : Nat → Nat → Nat → Nat
  | 0, a, _ => a
  | f + 1, a, b => if b = 0 then a else gcdFuel f b (a % b)

/-- Greatest common divisor via `gcdFuel` (the fuel `a + b + 1` dominates
the number of Euclidean steps). -/
def natGcd (a b : Nat) : Nat := gcdFuel (a + b + 1) a b

/-- Build the normalised rational `n / d` (`d ≠ 0` in every use below;
`d = 0` is mapped to `0` and, at the one place where it can occur — the
IEEE division operation — the zero-denominator case is dispatched before
`mk0` is called). -/
def mk0 (n d : ℤ) : Q :=
  if d = 0 then ⟨0, 1⟩
  else
    let n1 := if d < 0 then -n else n
    let d1 := if d < 0 then -d else d
    let g : ℤ := (natGcd n1.natAbs d1.natAbs : ℤ)
    ⟨n1 / g, d1 / g⟩

/-- The library-rational value of a `Q`. -/
def val (a : Q) : ℚ := (a.num : ℚ) / (a.den : ℚ)

/-- Exact addition. -/
def add (a b : Q) : Q := mk0 (a.num * b.den + b.num * a.den) (a.den * b.den)

/-- Exact negation (normalisation is preserved). -/
def neg (a : Q) : Q := ⟨-a.num, a.den⟩

/-- Exact subtraction. -/
def sub (a b : Q) : Q := add a (neg b)

/-- Exact multiplication. -/
def mul (a b : Q) : Q := mk0 (a.num * b.num) (a.den * b.den)

/-- Exact division (a zero divisor yields denominator 0, which `mk0` maps
to `0`; the IEEE layer tests for zero divisors before calling this). -/
def div (a b : Q) : Q := mk0 (a.num * b.den) (a.den * b.num)

/-- Strict order, by cross multiplication (denominators are positive). -/
def blt (a b : Q) : Bool := a.num * b.den < b.num * a.den

/-- Floor, as flooring integer division (denominators are positive). -/
def floor (a : Q) : ℤ := Int.fdiv a.num a.den

instance : Add Q := ⟨add⟩

instance : Sub Q := ⟨sub⟩

instance : Neg Q := ⟨neg⟩

instance : Mul Q := ⟨mul⟩

instance : Div Q := ⟨div⟩

instance : OfScientific Q :=
  ⟨fun m s e => if s then mk0 (m : ℤ) ((10 : ℤ) ^ e) else ⟨(m : ℤ) * (10 : ℤ) ^ e, 1⟩⟩

instance : NatCast Q := ⟨fun n => ⟨(n : ℤ), 1⟩⟩

instance (n : Nat) : OfNat Q n := ⟨⟨(n : ℤ), 1⟩⟩

/-- Integer square root by fuelled bisection: maintains `lo² ≤ n < hi²`
and returns `lo` once the bracket closes. -/
def isqrtGo (n : Nat) : Nat → Nat → Nat → Nat
  | lo, _, 0 => lo
  | lo, hi, f + 1 =>
    if hi ≤ lo + 1 then lo
    else
      let mid := (lo + hi) / 2
      if mid * mid ≤ n then isqrtGo n mid hi f else isqrtGo n lo mid f

/-- Integer square root (`⌊√n⌋`), kernel-computable. -/
def isqrt (n : Nat) : Nat := isqrtGo n 0 (n + 1) (n + 2)

end Q

/-!
## An IEEE-754-style scalar

`F64` carries the IEEE-754 special values (`+inf`, `-inf` and `nan`) with
their exact propagation rules, and exact rational arithmetic on finite
values.  This is the scalar used to settle the claims about the code's
behaviour at a zero position magnitude and on non-finite trajectories: on
every concrete input evaluated in this development all finite intermediate
values are exactly representable (they are 0, small integers or exact
decimal constants), so the absence of rounding and of a signed zero makes
no difference to any result proved here.
-/

/-- IEEE-754-style scalar: finite exact rational, signed infinity
(`inf true` is `-inf`), or `nan`. -/
inductive F64 where
  | fin (q : Q)
  | inf (sign : Bool)
  | nan
deriving DecidableEq, Repr

namespace F64

/-- IEEE negation. -/
def negF : F64 → F64
  | fin q => fin (Q.neg q)
  | inf b => inf (!b)
  | nan => nan

/-- IEEE addition (exact on finite values): `nan` absorbs, opposite
infinities give `nan`. -/
def addF : F64 → F64 → F64
  | nan, _ => nan
  | _, nan => nan
  | inf b, inf c => if b = c then inf b else nan
  | inf b, fin _ => inf b
  | fin _, inf c => inf c
  | fin a, fin b => fin (Q.add a b)

/-- IEEE subtraction, as addition of the negation. -/
def subF (a b : F64) : F64 := addF a (negF b)

/-- IEEE multiplication (exact on finite values): `nan` absorbs,
`inf * 0 = nan`, otherwise signs multiply. -/
def mulF : F64 → F64 → F64
  | nan, _ => nan
  | _, nan => nan
  | inf b, inf c => inf (xor b c)
  | inf b, fin q => if q.num = 0 then nan else inf (xor b (decide (q.num < 0)))
  | fin q, inf c => if q.num = 0 then nan else inf (xor c (decide (q.num < 0)))
  | fin a, fin b => fin (Q.mul a b)

/-- IEEE division (exact on finite values): `nan` absorbs, `inf / inf = nan`,
`0 / 0 = nan`, nonzero finite over zero gives a signed infinity, finite over
infinity gives zero. -/
def divF : F64 → F64 → F64
  | nan, _ => nan
  | _, nan => nan
  | inf _, inf _ => nan
  | inf b, fin q => inf (xor b (decide (q.num < 0)))
  | fin _, inf _ => fin 0
  | fin a, fin b =>
    if b.num = 0 then (if a.num = 0 then nan else inf (decide (a.num < 0)))
    else fin (Q.div a b)

/-- Natural-number power as iterated multiplication (numpy `**` with a
non-negative integer exponent). -/
def powF (a : F64) : Nat → F64
  | 0 => fin 1
  | n + 1 => mulF (powF a n) a

/-- IEEE square root: `nan` for `nan` and for negative arguments, `+inf`
for `+inf`, exact on perfect squares (the value `num/den` is a rational
square iff `num * den` is a perfect square).  A finite non-negative
argument that is not a perfect square is mapped to `nan` as an explicit
out-of-model marker; no such argument is ever evaluated in this
development. -/
def sqrtF : F64 → F64
  | nan => nan
  | inf b => if b then nan else inf false
  | fin q =>
    if q.num < 0 then nan
    else
      let p := (q.num * q.den).toNat
      let s := Q.isqrt p
      if s * s = p then fin (Q.mk0 (s : ℤ) q.den) else nan

instance : Add F64 := ⟨addF⟩

instance : Sub F64 := ⟨subF⟩

instance : Neg F64 := ⟨negF⟩

instance : Mul F64 := ⟨mulF⟩

instance : Div F64 := ⟨divF⟩

instance : Pow F64 ℕ := ⟨powF⟩

instance : OfScientific F64 := ⟨fun m s e => fin (OfScientific.ofScientific m s e)⟩

instance : NatCast F64 := ⟨fun n => fin (n : Q)⟩

instance : SqrtOp F64 := ⟨sqrtF⟩

end F64

/-!
## Binary64 rounding, for the time axis of `runge_kutta_4`

The arrays in `runge_kutta_4` hold IEEE-754 binary64 values, so the update
`time_series[i + 1] = t_current + delta_t` rounds each sum to 53
significant bits (round to nearest, ties to even).  `fl64` models that
rounding exactly on `Q` for values in the normal range (gradual underflow
and overflow are irrelevant here: every value evaluated lies well inside
the normal range). -/

namespace Q

/-- Binary exponent search: multiplies or divides by 2 until the value
lies in `[1, 2)`, returning the exponent `e` with `2 ^ e ≤ q < 2 ^ (e+1)`
for the positive input (fuelled structural recursion; the intermediate
fractions are deliberately left unnormalised, only their values matter). -/
def normExp : Q → ℤ → Nat → ℤ
  | _, e, 0 => e
  | q, e, f + 1 =>
    if q.num < q.den then normExp ⟨q.num * 2, q.den⟩ (e - 1) f
    else if 2 * q.den ≤ q.num then normExp ⟨q.num, q.den * 2⟩ (e + 1) f
    else e

/-- Round to the nearest integer, ties to even. -/
def roundHalfEven (q : Q) : ℤ :=
  let n := Int.fdiv q.num q.den
  let r := q.num - n * q.den
  if 2 * r < q.den then n
  else if q.den < 2 * r then n + 1
  else if n % 2 = 0 then n else n + 1

/-- Round a positive value to 53 significant bits, nearest, ties to even:
scale into `[2^52, 2^53)`, round to an integer significand, scale back. -/
def fl64Pos (q : Q) : Q :=
  let e := normExp q 0 4400
  if e ≥ 52 then
    let s : ℤ := 2 ^ (e - 52).toNat
    let m := roundHalfEven (mk0 q.num (q.den * s))
    ⟨m * s, 1⟩
  else
    let s : ℤ := 2 ^ (52 - e).toNat
    let m := roundHalfEven (mk0 (q.num * s) q.den)
    mk0 m s

/-- IEEE-754 binary64 rounding (round to nearest, ties to even) of an
exact rational in the normal range. -/
def fl64 (q : Q) : Q :=
  if q.num = 0 then ⟨0, 1⟩
  else if q.num < 0 then neg (fl64Pos (neg q)) else fl64Pos q

end Q

/-- The binary64 value of the literal `0.1`: the time step used to exhibit
floating-point drift in the time axis.  (`0.1` is not a binary64 value;
the parsed constant is the nearest binary64, `3602879701896397 / 2^55`.) -/
def dt01 : Q := Q.fl64 (0.1 : Q)

/-- The value of `time_series[i]` in `runge_kutta_4` under the code's
actual binary64 arithmetic: `time_series[0] = 0.0` and
`time_series[i + 1] = t_current + delta_t`, each sum rounded to binary64
(repeated addition, exactly as the source computes it). -/
def time_series_f64 (delta_t : Q) : Nat → Q
  | 0 => 0
  | i + 1 => Q.fl64 (Q.add (time_series_f64 delta_t i) delta_t)

/-!
## The validation orchestrator (`src/simulation.py`)

`run_multi_object_simulation_and_validate` iterates over the satellite
list; per object it obtains the initial state from the external translator
(`get_initial_state_and_time`), propagates with `runge_kutta_4`, queries
the external reference propagator (`satellite.at`, Skyfield/SGP4) once per
time sample, computes the final-position error, builds a per-object
dataframe and finally consolidates all dataframes with
`pd.concat(all_results, ignore_index=True)`.

The two external collaborators are modelled as data carried by each
object: the translator's output is the `state0` field, and the reference
propagator is the field `refAt`, whose value at sample index `k` is either
the reference position at elapsed time `k * delta_t` or an exception
(`Except.error`).  The source contains no `try/except`, so any exception
propagates: in the model every raised exception turns the whole run into
an `Except.error`.  `pd.concat` raises `ValueError` when given no
dataframes, which the model renders as `RunError.emptyConcat`. -/

/-- One entry of the orchestrator's satellite list: identity metadata
(`satellite.name`, `satellite.model.satnum`), the initial Cartesian state
delivered by the external translator, and the external reference
propagator, indexed by time-sample number. -/
structure SatObj (α : Type) where
  name : String
  satnum : Nat
  state0 : State6 α
  refAt : Nat → Except Unit (Vec3 α)

/-- One row of the consolidated dataframe returned by the orchestrator:
the six state components (columns `rx … vz` of `df_orbit`), the elapsed
time (`time_step`), the identity metadata (`satellite_name`,
`satellite_id`) and the final-position validation error (`error_km`). -/
structure ResultRow (α : Type) where
  rx : α
  ry : α
  rz : α
  vx : α
  vy : α
  vz : α
  time_step : α
  satellite_name : String
  satellite_id : Nat
  error_km : α
deriving DecidableEq, Repr

/-- The ways a batch run can terminate abnormally: an uncaught exception
from a reference-propagator call, or `pd.concat` called on an empty list
of dataframes. -/
inductive RunError where
  | refFailure
  | emptyConcat
deriving DecidableEq, Repr

/-- The reference-propagation loop for one object: queries the reference
propagator at the sample indices `0, …, num_steps` in order, filling
`r_skyfield_history`; the first raised exception aborts the loop. -/
def ref_history {α : Type} (sat : SatObj α) : Nat → Except Unit (List (Vec3 α))
  | 0 => (sat.refAt 0).map (fun v => [v])
  | k + 1 =>
    match ref_history sat k with
    | .error e => .error e
    | .ok l => (sat.refAt (k + 1)).map (fun v => l ++ [v])

section Orchestrator

variable {α : Type} [Add α] [Sub α] [Neg α] [Mul α] [Div α] [Pow α ℕ]
variable [OfScientific α] [NatCast α] [SqrtOp α]

/-- The rows of one object's dataframe `df_orbit`: row `k` holds the six
state components of `state_history[k]`, the elapsed time
`time_series[k] = k * delta_t` (the orchestrator's own
`np.arange(0, duration + delta_t, delta_t)` axis, exact because the
configured `delta_t` divides the duration), the identity metadata and the
final-position error `error_km` shared by all rows of the object. -/
def object_rows (delta_t : α) (num_steps : Nat) (sat : SatObj α) (refs : List (Vec3 α)) :
    List (ResultRow α) :=
  let final_r_rk4 := (state_history sat.state0 delta_t num_steps).r
  let final_r_skyfield := refs.getD num_steps ⟨0.0, 0.0, 0.0⟩
  let error_magnitude := norm3 (final_r_rk4 - final_r_skyfield)
  (List.range (num_steps + 1)).map fun k =>
    let s := state_history sat.state0 delta_t k
    { rx := s.r.x, ry := s.r.y, rz := s.r.z,
      vx := s.v.x, vy := s.v.y, vz := s.v.z,
      time_step := (k : α) * delta_t,
      satellite_name := sat.name,
      satellite_id := sat.satnum,
      error_km := error_magnitude }

/-- The main loop of `run_multi_object_simulation_and_validate`: processes
the satellites in list order, accumulating the per-object dataframes in
`all_results`; an uncaught reference-propagator exception aborts the whole
loop. -/
def sim_loop (delta_t : α) (num_steps : Nat) :
    List (SatObj α) → Except RunError (List (List (ResultRow α)))
  | [] => .ok []
  | sat :: rest =>
    match ref_history sat num_steps with
    | .error _ => .error RunError.refFailure
    | .ok refs =>
      match sim_loop delta_t num_steps rest with
      | .error e => .error e
      | .ok dfs => .ok (object_rows delta_t num_steps sat refs :: dfs)

/-- `src/simulation.py`, `run_multi_object_simulation_and_validate`:
runs the loop and consolidates with
`pd.concat(all_results, ignore_index=True)` — which raises `ValueError`
when `all_results` is empty. -/
def run_multi_object_simulation_and_validate (delta_t : α) (num_steps : Nat)
    (list_of_satellites : List (SatObj α)) : Except RunError (List (ResultRow α)) :=
  match sim_loop delta_t num_steps list_of_satellites with
  | .error e => .error e
  | .ok all_results =>
    if all_results.isEmpty then .error RunError.emptyConcat else .ok all_results.flatten

end Orchestrator

/-!
## Spec-side definitions

For the refinement claims, a second set of definitions follows the
wording of the specification (spec §4.1 for the force model, §4.3 and
claim C1 for the integrator step); the theorems compare them with the
embedding of the source. -/

/-- The force model exactly as the spec words it (§4.1): the two-body term
`a_kepler = -(GM / |r|^3) * r` superposed with the J2 term built from
`k = 1.5 * J2 * GM * R_eq^2 / |r|^5`, `z2 = z^2`, `r2 = |r|^2`, with the
constants `GM = 398600.4418`, `R_eq = 6378.137`, `J2 = 1.08263e-3`. -/
noncomputable def acceleration_spec (r : Vec3 ℝ) : Vec3 ℝ :=
  let GM : ℝ := 398600.4418
  let R_eq : ℝ := 6378.137
  let J2_coeff : ℝ := 1.08263e-3
  let rmag := norm3 r
  let a_kepler := (-(GM / rmag ^ 3)) * r
  let k : ℝ := 1.5 * J2_coeff * GM * R_eq ^ 2 / rmag ^ 5
  let z2 := r.z ^ 2
  let r2 := rmag ^ 2
  let a_j2 : Vec3 ℝ :=
    ⟨k * r.x * (5 * z2 / r2 - 1), k * r.y * (5 * z2 / r2 - 1), k * r.z * (5 * z2 / r2 - 3)⟩
  a_kepler + a_j2

/-- One RK4 step exactly as the spec words it (§4.3, with the four stage
times of claim C1): `k1 = dt*f(t, s)`, `k2 = dt*f(t + dt/2, s + 0.5*k1)`,
`k3 = dt*f(t + dt/2, s + 0.5*k2)`, `k4 = dt*f(t + dt, s + k3)`,
`s_next = s + (1/6)*(k1 + 2*k2 + 2*k3 + k4)`, where `f` is the derivative
function. -/
noncomputable def rk4_step_spec (delta_t t : ℝ) (s : State6 ℝ) : State6 ℝ :=
  let k1 := delta_t * get_derivatives t s
  let k2 := delta_t * get_derivatives (t + delta_t / 2) (s + (0.5 : ℝ) * k1)
  let k3 := delta_t * get_derivatives (t + delta_t / 2) (s + (0.5 : ℝ) * k2)
  let k4 := delta_t * get_derivatives (t + delta_t) (s + k3)
  s + (1 / 6 : ℝ) * (k1 + (2 : ℝ) * k2 + (2 : ℝ) * k3 + k4)

/-!
## Helper lemmas -/

@[simp] theorem sqrtOp_real (x : ℝ) : SqrtOp.sqrt x = Real.sqrt x := rfl

/-- `get_derivatives` written without its (unused) time argument. -/
theorem get_derivatives_def {α : Type} [Add α] [Sub α] [Neg α] [Mul α] [Div α]
    [Pow α ℕ] [OfScientific α] [NatCast α] [SqrtOp α] (t : α) (s : State6 α) :
    get_derivatives t s = ⟨s.v, calculate_acceleration s.r⟩ := rfl

/-- Under exact arithmetic the repeated addition in the time axis sums to
`i * delta_t`. -/
theorem time_series_real_eq (delta_t : ℝ) (i : Nat) :
    time_series delta_t i = (i : ℝ) * delta_t := by
  induction i with
  | zero => simp only [time_series]; norm_num
  | succ i ih => simp only [time_series, ih]; push_cast; ring

/-- The loop body of `runge_kutta_4` is exactly the spec's RK4 step. -/
theorem state_history_succ (s0 : State6 ℝ) (delta_t : ℝ) (i : Nat) :
    state_history s0 delta_t (i + 1) =
      rk4_step_spec delta_t (time_series delta_t i) (state_history s0 delta_t i) := by
  have h6 : (1.0 / 6.0 : ℝ) = 1 / 6 := by norm_num
  have h2 : (2.0 : ℝ) = 2 := by norm_num
  simp only [state_history, rk4_step_spec, get_derivatives_def, h6, h2]

attribute [ext] Vec3 State6

set_option maxRecDepth 8000

/-!
## Claims -/

/-- C1: for every 6-component initial state, step size and step count
`num_steps ≥ 1`, each step of `runge_kutta_4` advances the current
trajectory row by the spec's RK4 recurrence
(`k1 = dt*f(t,s)`, `k2 = dt*f(t+dt/2, s+0.5*k1)`,
`k3 = dt*f(t+dt/2, s+0.5*k2)`, `k4 = dt*f(t+dt, s+k3)`,
`s_next = s + (1/6)*(k1+2*k2+2*k3+k4)`): trajectory row `i` is
`state_history i`, and row `i+1` is exactly `rk4_step_spec` applied to
row `i` at the row-`i` time. -/
theorem C1_rk4_step_recurrence (s0 : State6 ℝ) (delta_t : ℝ) (num_steps i : Nat)
    (hN : 1 ≤ num_steps) (hi : i < num_steps) :
    (runge_kutta_4 s0 delta_t num_steps).2[i]? = some (state_history s0 delta_t i) ∧
    (runge_kutta_4 s0 delta_t num_steps).2[i + 1]? =
      some (rk4_step_spec delta_t (time_series delta_t i) (state_history s0 delta_t i)) := by
  constructor
  · simp [runge_kutta_4, List.getElem?_map, List.getElem?_range, Nat.lt_succ_of_lt hi]
  · rw [← state_history_succ]
    simp [runge_kutta_4, List.getElem?_map, List.getElem?_range, Nat.succ_lt_succ hi]

/-- A concrete real-valued state used to instantiate witnesses. -/
def zero_state : State6 ℝ := ⟨⟨0, 0, 0⟩, ⟨0, 0, 0⟩⟩

/-- Witness for C1 at the concrete input `s0 = zero_state`, `delta_t = 1`,
`num_steps = 1`, `i = 0`. -/
theorem C1_rk4_step_recurrence_witness :
    1 ≤ 1 ∧ 0 < 1 ∧
    ((runge_kutta_4 zero_state 1 1).2[0]? = some (state_history zero_state 1 0) ∧
      (runge_kutta_4 zero_state 1 1).2[0 + 1]? =
        some (rk4_step_spec 1 (time_series 1 0) (state_history zero_state 1 0))) :=
  ⟨le_refl 1, Nat.zero_lt_one,
    C1_rk4_step_recurrence zero_state 1 1 0 (le_refl 1) Nat.zero_lt_one⟩

/-- C2: for every position with nonzero magnitude, `calculate_acceleration`
equals the spec's superposition of the Keplerian term
`-(GM/|r|^3) * r` and the J2 term with `k = 1.5*J2*GM*R_eq^2/|r|^5`,
using `GM = 398600.4418`, `R_eq = 6378.137`, `J2 = 1.08263e-3`
(`acceleration_spec` is written from the spec text). -/
theorem C2_acceleration_superposition (r : Vec3 ℝ) (h : norm3 r ≠ 0) :
    calculate_acceleration r = acceleration_spec r := by
  ext <;> simp [calculate_acceleration, acceleration_spec, GM_EARTH, RADIUS_EARTH, J2] <;>
    norm_num <;> ring

/-- Witness for C2 at the concrete position `(7000, 0, 0)` km. -/
theorem C2_acceleration_superposition_witness :
    norm3 (⟨7000, 0, 0⟩ : Vec3 ℝ) ≠ 0 ∧
    calculate_acceleration (⟨7000, 0, 0⟩ : Vec3 ℝ) = acceleration_spec ⟨7000, 0, 0⟩ := by
  have h : norm3 (⟨7000, 0, 0⟩ : Vec3 ℝ) ≠ 0 := by
    simp only [norm3, sqrtOp_real]
    rw [Real.sqrt_ne_zero']
    norm_num
  exact ⟨h, C2_acceleration_superposition ⟨7000, 0, 0⟩ h⟩

/-- C4: for every time and every 6-component state, `get_derivatives`
returns `[v, calculate_acceleration(r)]`; its first three components are
exactly `state[3:6]`, and the result does not depend on the time
argument. -/
theorem C4_derivatives_velocity_passthrough :
    ∀ (t t1 t2 : ℝ) (s : State6 ℝ),
      get_derivatives t s = ⟨s.v, calculate_acceleration s.r⟩ ∧
      (get_derivatives t s).r = s.v ∧
      get_derivatives t1 s = get_derivatives t2 s :=
  fun _ _ _ _ => ⟨rfl, rfl, rfl⟩

/-- C3 (amended): the code computes the time axis by repeated addition
(`time_series[i+1] = t_current + delta_t`), not by recomputing `i * dt`;
under exact real arithmetic the repeated addition still yields
`time[i] = i * dt` for every `i ≤ num_steps`, and in particular the last
entry (index `num_steps` of the `num_steps + 1` entries) equals
`num_steps * dt`.  Under the code's binary64 arithmetic the equality is
not exact (see the counterexample). -/
theorem C3_time_axis_exact_arithmetic (s0 : State6 ℝ) (delta_t : ℝ) (num_steps i : Nat)
    (hi : i ≤ num_steps) :
    (runge_kutta_4 s0 delta_t num_steps).1[i]? = some ((i : ℝ) * delta_t) ∧
    (runge_kutta_4 s0 delta_t num_steps).1[num_steps]? =
      some ((num_steps : ℝ) * delta_t) := by
  constructor
  · simp [runge_kutta_4, List.getElem?_map, List.getElem?_range, Nat.lt_succ_of_le hi,
      time_series_real_eq]
  · simp [runge_kutta_4, List.getElem?_map, List.getElem?_range, Nat.lt_succ_of_le (le_refl _),
      time_series_real_eq]

/-- Witness for C3 (amended) at `s0 = zero_state`, `delta_t = 1`,
`num_steps = 2`, `i = 1`. -/
theorem C3_time_axis_exact_arithmetic_witness :
    1 ≤ 2 ∧
    ((runge_kutta_4 zero_state 1 2).1[1]? = some ((1 : ℕ) * (1 : ℝ)) ∧
      (runge_kutta_4 zero_state 1 2).1[2]? = some ((2 : ℕ) * (1 : ℝ))) :=
  ⟨(by decide : (1:Nat) ≤ 2), C3_time_axis_exact_arithmetic zero_state 1 2 1 (by decide : (1:Nat) ≤ 2)⟩

/-- C3 counterexample: under the code's binary64 arithmetic the claim's
equality `time[i] = i * dt` fails.  With `dt` the binary64 value of the
literal `0.1` and `num_steps = 10`, the repeated addition computed by
`time_series[i+1] = t_current + delta_t` gives
`time[10] = 9007199254740991/9007199254740992` (the binary64
`0.9999999999999999`), which differs from `10 * dt`; in particular the
last time entry is not `num_steps * dt`.  So the claim that the code
recomputes each timestamp as `i * dt` (with no drift accumulation) is
false of the code, which accumulates by repeated addition. -/
theorem C3_counterexample_binary64_drift :
    time_series_f64 dt01 10 ≠ (10 : Q) * dt01 ∧
    Q.val (time_series_f64 dt01 10) ≠ 10 * Q.val dt01 := by
  constructor
  · decide
  · have h1 : time_series_f64 dt01 10 = ⟨9007199254740991, 9007199254740992⟩ := by decide
    have h2 : dt01 = ⟨3602879701896397, 36028797018963968⟩ := by decide
    rw [h1, h2]
    simp only [Q.val]
    norm_num

/-- C5: for every initial state, positive step and step count, the
trajectory returned by `runge_kutta_4` has exactly `num_steps + 1` time
samples and `num_steps + 1` state samples, its first sample is elapsed
time `0` paired with the unmodified initial state, and its time values
are strictly increasing. -/
theorem C5_trajectory_shape (s0 : State6 ℝ) (delta_t : ℝ) (num_steps : Nat)
    (hdt : 0 < delta_t) :
    (runge_kutta_4 s0 delta_t num_steps).1.length = num_steps + 1 ∧
    (runge_kutta_4 s0 delta_t num_steps).2.length = num_steps + 1 ∧
    (runge_kutta_4 s0 delta_t num_steps).1.head? = some 0 ∧
    (runge_kutta_4 s0 delta_t num_steps).2.head? = some s0 ∧
    (runge_kutta_4 s0 delta_t num_steps).1.Pairwise (· < ·) := by
  refine ⟨by simp [runge_kutta_4], by simp [runge_kutta_4], ?_, ?_, ?_⟩
  · simp [runge_kutta_4, List.range_succ_eq_map, time_series]
    norm_num
  · simp [runge_kutta_4, List.range_succ_eq_map, state_history]
  · simp only [runge_kutta_4]
    rw [List.pairwise_map]
    refine (List.pairwise_lt_range (num_steps + 1)).imp ?_
    intro a b hab
    rw [time_series_real_eq, time_series_real_eq]
    exact mul_lt_mul_of_pos_right (Nat.cast_lt.mpr hab) hdt

/-- Witness for C5 at `s0 = zero_state`, `delta_t = 1`, `num_steps = 2`. -/
theorem C5_trajectory_shape_witness :
    (0 : ℝ) < 1 ∧
    ((runge_kutta_4 zero_state 1 2).1.length = 2 + 1 ∧
      (runge_kutta_4 zero_state 1 2).2.length = 2 + 1 ∧
      (runge_kutta_4 zero_state 1 2).1.head? = some 0 ∧
      (runge_kutta_4 zero_state 1 2).2.head? = some zero_state ∧
      (runge_kutta_4 zero_state 1 2).1.Pairwise (· < ·)) :=
  ⟨one_pos, C5_trajectory_shape zero_state 1 2 one_pos⟩

/-- With `z = 0` both J2 and Keplerian z-components vanish. -/
theorem accel_z_zero (r : Vec3 ℝ) (hz : r.z = 0) : (calculate_acceleration r).z = 0 := by
  simp [calculate_acceleration, hz]

/-- The derivative of an equatorial state is equatorial. -/
theorem plane_deriv (t : ℝ) (u : State6 ℝ) (h : u.r.z = 0 ∧ u.v.z = 0) :
    (get_derivatives t u).r.z = 0 ∧ (get_derivatives t u).v.z = 0 :=
  ⟨by simpa [get_derivatives_def] using h.2,
   by simpa [get_derivatives_def] using accel_z_zero u.r h.1⟩

/-- Adding two equatorial states stays equatorial. -/
theorem plane_add {a b : State6 ℝ} (ha : a.r.z = 0 ∧ a.v.z = 0)
    (hb : b.r.z = 0 ∧ b.v.z = 0) : (a + b).r.z = 0 ∧ (a + b).v.z = 0 := by
  simp [ha.1, ha.2, hb.1, hb.2]

/-- Scaling an equatorial state stays equatorial. -/
theorem plane_smul (c : ℝ) {a : State6 ℝ} (ha : a.r.z = 0 ∧ a.v.z = 0) :
    (c * a).r.z = 0 ∧ (c * a).v.z = 0 := by
  simp [ha.1, ha.2]

/-- One RK4 step maps an equatorial state to an equatorial state. -/
theorem plane_step (delta_t t : ℝ) (s : State6 ℝ) (h : s.r.z = 0 ∧ s.v.z = 0) :
    (rk4_step_spec delta_t t s).r.z = 0 ∧ (rk4_step_spec delta_t t s).v.z = 0 := by
  have hk1 := plane_smul delta_t (plane_deriv t s h)
  have hk2 := plane_smul delta_t
    (plane_deriv (t + delta_t / 2) _ (plane_add h (plane_smul 0.5 hk1)))
  have hk3 := plane_smul delta_t
    (plane_deriv (t + delta_t / 2) _ (plane_add h (plane_smul 0.5 hk2)))
  have hk4 := plane_smul delta_t (plane_deriv (t + delta_t) _ (plane_add h hk3))
  exact plane_add h (plane_smul (1 / 6)
    (plane_add (plane_add (plane_add hk1 (plane_smul 2 hk2)) (plane_smul 2 hk3)) hk4))

/-- Every trajectory row of an equatorial initial state is equatorial. -/
theorem plane_history (s0 : State6 ℝ) (delta_t : ℝ) (i : Nat)
    (h : s0.r.z = 0 ∧ s0.v.z = 0) :
    (state_history s0 delta_t i).r.z = 0 ∧ (state_history s0 delta_t i).v.z = 0 := by
  induction i with
  | zero => exact h
  | succ i ih => rw [state_history_succ]; exact plane_step _ _ _ ih

/-- C10: the equatorial plane is invariant under the embedded dynamics.
For every position with `z = 0` (and nonzero magnitude) the z-component of
`calculate_acceleration` is exactly 0; for every state with `z = 0` and
`vz = 0` the z- and vz-components of `get_derivatives` are exactly 0; every
RK4 step maps an equatorial state to an equatorial state; and every row of
a `runge_kutta_4` trajectory started in the equatorial plane stays in it. -/
theorem C10_equatorial_invariance :
    (∀ r : Vec3 ℝ, r.z = 0 → norm3 r ≠ 0 → (calculate_acceleration r).z = 0) ∧
    (∀ (t : ℝ) (s : State6 ℝ), s.r.z = 0 → s.v.z = 0 → norm3 s.r ≠ 0 →
      (get_derivatives t s).r.z = 0 ∧ (get_derivatives t s).v.z = 0) ∧
    (∀ (delta_t t : ℝ) (s : State6 ℝ), s.r.z = 0 → s.v.z = 0 →
      (rk4_step_spec delta_t t s).r.z = 0 ∧ (rk4_step_spec delta_t t s).v.z = 0) ∧
    (∀ (s0 : State6 ℝ) (delta_t : ℝ) (num_steps : Nat), s0.r.z = 0 → s0.v.z = 0 →
      ∀ s ∈ (runge_kutta_4 s0 delta_t num_steps).2, s.r.z = 0 ∧ s.v.z = 0) := by
  refine ⟨fun r hz _ => accel_z_zero r hz,
    fun t s h1 h2 _ => plane_deriv t s ⟨h1, h2⟩,
    fun delta_t t s h1 h2 => plane_step delta_t t s ⟨h1, h2⟩,
    fun s0 delta_t num_steps h1 h2 s hs => ?_⟩
  simp only [runge_kutta_4, List.mem_map, List.mem_range] at hs
  obtain ⟨i, _, rfl⟩ := hs
  exact plane_history s0 delta_t i ⟨h1, h2⟩

/-- A concrete equatorial state (`7000 km` radius, `7.5 km/s` tangential
velocity) used to instantiate the C10 witness. -/
def equatorial_state : State6 ℝ := ⟨⟨7000, 0, 0⟩, ⟨0, 7.5, 0⟩⟩

/-- Witness for C10 at the concrete equatorial state, `delta_t = 60`,
`num_steps = 2`. -/
theorem C10_equatorial_invariance_witness :
    equatorial_state.r.z = 0 ∧ equatorial_state.v.z = 0 ∧
    norm3 equatorial_state.r ≠ 0 ∧
    (calculate_acceleration equatorial_state.r).z = 0 ∧
    ((get_derivatives 0 equatorial_state).r.z = 0 ∧
      (get_derivatives 0 equatorial_state).v.z = 0) ∧
    ((rk4_step_spec 60 0 equatorial_state).r.z = 0 ∧
      (rk4_step_spec 60 0 equatorial_state).v.z = 0) ∧
    (∀ s ∈ (runge_kutta_4 equatorial_state 60 2).2, s.r.z = 0 ∧ s.v.z = 0) := by
  have hz : equatorial_state.r.z = 0 := rfl
  have hv : equatorial_state.v.z = 0 := rfl
  have hn : norm3 equatorial_state.r ≠ 0 := by
    simp only [norm3, sqrtOp_real, equatorial_state]
    rw [Real.sqrt_ne_zero']
    norm_num
  exact ⟨hz, hv, hn,
    C10_equatorial_invariance.1 equatorial_state.r hz hn,
    C10_equatorial_invariance.2.1 0 equatorial_state hz hv hn,
    C10_equatorial_invariance.2.2.1 60 0 equatorial_state hz hv,
    C10_equatorial_invariance.2.2.2 equatorial_state 60 2 hz hv⟩

/-- C6 counterexample: at the zero position the source does not raise a
domain error — there is no error path in `calculate_acceleration` at all.
Under the code's IEEE arithmetic, `np.linalg.norm([0,0,0]) = 0`, the
divisions by `0` produce signed infinities with a numpy warning (not an
exception), and the products `inf * 0` and `0/0` produce `nan`: the call
returns the all-`nan` vector instead of signalling a domain error. -/
theorem C6_counterexample_no_domain_error :
    calculate_acceleration (α := F64) ⟨0.0, 0.0, 0.0⟩ = ⟨F64.nan, F64.nan, F64.nan⟩ := by
  decide

/-- C6 (amended): `calculate_acceleration` does not fail at a position of
zero magnitude; for `r = (0, 0, 0)` it returns a value — the vector whose
three components are all IEEE `nan` (division-by-zero and `inf * 0`
propagation) — and for every position with nonzero magnitude it returns
normally, the superposition value of the force model. -/
theorem C6_amended_zero_position_returns_nan :
    (calculate_acceleration (α := F64) ⟨0.0, 0.0, 0.0⟩ = ⟨F64.nan, F64.nan, F64.nan⟩) ∧
    (∀ r : Vec3 ℝ, norm3 r ≠ 0 → calculate_acceleration r = acceleration_spec r) := by
  constructor
  · decide
  · intro r _
    ext <;> simp [calculate_acceleration, acceleration_spec, GM_EARTH, RADIUS_EARTH, J2] <;>
      norm_num <;> ring

/-- Witness for C6 (amended): the nonzero-magnitude branch instantiated at
the concrete position `(7000, 0, 0)` km. -/
theorem C6_amended_zero_position_returns_nan_witness :
    norm3 (⟨7000, 0, 0⟩ : Vec3 ℝ) ≠ 0 ∧
    calculate_acceleration (⟨7000, 0, 0⟩ : Vec3 ℝ) = acceleration_spec ⟨7000, 0, 0⟩ := by
  have h : norm3 (⟨7000, 0, 0⟩ : Vec3 ℝ) ≠ 0 := by
    simp only [norm3, sqrtOp_real]
    rw [Real.sqrt_ne_zero']
    norm_num
  exact ⟨h, C6_amended_zero_position_returns_nan.2 ⟨7000, 0, 0⟩ h⟩

/-- If any queried sample of an object's reference loop raises, the whole
loop raises. -/
theorem ref_history_error {α : Type} (sat : SatObj α) (num_steps k : Nat)
    (hk : k ≤ num_steps) (h : sat.refAt k = .error ()) :
    ref_history sat num_steps = .error () := by
  induction num_steps with
  | zero =>
    have hk0 : k = 0 := Nat.le_zero.mp hk
    simp only [ref_history, hk0 ▸ h, Except.map]
  | succ n ih =>
    rcases Nat.lt_or_ge k (n + 1) with hlt | hge
    · have := ih (Nat.lt_succ_iff.mp hlt)
      simp only [ref_history, this]
    · have hk1 : k = n + 1 := le_antisymm hk hge
      simp only [ref_history]
      cases href : ref_history sat n with
      | error e => rfl
      | ok l => simp only [hk1 ▸ h, Except.map]

section OrchestratorLemmas

variable {α : Type} [Add α] [Sub α] [Neg α] [Mul α] [Div α] [Pow α ℕ]
variable [OfScientific α] [NatCast α] [SqrtOp α]

/-- If any listed object's reference loop raises, the orchestrator's main
loop aborts with the uncaught reference failure. -/
theorem sim_loop_error (delta_t : α) (num_steps : Nat) (sats : List (SatObj α))
    (sat : SatObj α) (hmem : sat ∈ sats) (h : ref_history sat num_steps = .error ()) :
    sim_loop delta_t num_steps sats = .error RunError.refFailure := by
  induction sats with
  | nil => cases hmem
  | cons head rest ih =>
    rcases List.mem_cons.mp hmem with rfl | hmem2
    · simp only [sim_loop, h]
    · cases href : ref_history head num_steps with
      | error e => simp only [sim_loop, href]
      | ok refs => simp only [sim_loop, href, ih hmem2]

/-- Each per-object dataframe has `num_steps + 1` rows. -/
theorem object_rows_length (delta_t : α) (num_steps : Nat) (sat : SatObj α)
    (refs : List (Vec3 α)) :
    (object_rows delta_t num_steps sat refs).length = num_steps + 1 := by
  simp [object_rows]

/-- Every row of a per-object dataframe carries the object's identity, a
sample index `k ≤ num_steps` with elapsed time `k * delta_t`, and the six
components of `state_history k`. -/
theorem object_rows_mem (delta_t : α) (num_steps : Nat) (sat : SatObj α)
    (refs : List (Vec3 α)) (row : ResultRow α)
    (hrow : row ∈ object_rows delta_t num_steps sat refs) :
    row.satellite_name = sat.name ∧ row.satellite_id = sat.satnum ∧
    ∃ k ≤ num_steps, row.time_step = (k : α) * delta_t ∧
      (⟨⟨row.rx, row.ry, row.rz⟩, ⟨row.vx, row.vy, row.vz⟩⟩ : State6 α) =
        state_history sat.state0 delta_t k := by
  simp only [object_rows, List.mem_map, List.mem_range] at hrow
  obtain ⟨k, hk, rfl⟩ := hrow
  exact ⟨rfl, rfl, k, Nat.lt_succ_iff.mp hk, rfl, rfl⟩

/-- A successful main loop returns one dataframe per object, each produced
by `object_rows` for some object of the batch. -/
theorem sim_loop_ok (delta_t : α) (num_steps : Nat) (sats : List (SatObj α))
    (dfs : List (List (ResultRow α))) (h : sim_loop delta_t num_steps sats = .ok dfs) :
    dfs.length = sats.length ∧
    ∀ df ∈ dfs, ∃ sat ∈ sats, ∃ refs, df = object_rows delta_t num_steps sat refs := by
  induction sats generalizing dfs with
  | nil =>
    simp only [sim_loop] at h
    cases h
    exact ⟨rfl, by simp⟩
  | cons head rest ih =>
    simp only [sim_loop] at h
    cases href : ref_history head num_steps with
    | error e => rw [href] at h; cases h
    | ok refs =>
      rw [href] at h
      cases hrest : sim_loop delta_t num_steps rest with
      | error e => rw [hrest] at h; cases h
      | ok dfs2 =>
        rw [hrest] at h
        cases h
        obtain ⟨hlen, hmem⟩ := ih dfs2 hrest
        refine ⟨by simp [hlen], ?_⟩
        intro df hdf
        rcases List.mem_cons.mp hdf with rfl | hdf2
        · exact ⟨head, List.mem_cons_self head rest, refs, rfl⟩
        · obtain ⟨sat, hsat, refs2, hdf3⟩ := hmem df hdf2
          exact ⟨sat, List.mem_cons_of_mem head hsat, refs2, hdf3⟩

end OrchestratorLemmas

/-- Flattening a list of lists of equal length `n` gives
`(number of lists) * n` elements. -/
theorem flatten_length_const {β : Type} (dfs : List (List β)) (n : Nat)
    (h : ∀ df ∈ dfs, df.length = n) : dfs.flatten.length = dfs.length * n := by
  induction dfs with
  | nil => simp
  | cons head rest ih =>
    simp only [List.flatten_cons, List.length_append, List.length_cons]
    rw [h head (List.mem_cons_self head rest),
      ih (fun df hdf => h df (List.mem_cons_of_mem head hdf)), Nat.succ_mul,
      Nat.add_comm]

/-- A concrete object whose reference-propagator lookup raises at every
sample. -/
def c7_fail_sat : SatObj F64 :=
  { name := "SAT-F", satnum := 2,
    state0 := ⟨⟨0.0, 0.0, 0.0⟩, ⟨0.0, 0.0, 0.0⟩⟩,
    refAt := fun _ => .error () }

/-- A concrete object whose reference-propagator lookup succeeds at every
sample. -/
def c7_ok_sat : SatObj F64 :=
  { name := "SAT-G", satnum := 3,
    state0 := ⟨⟨0.0, 0.0, 0.0⟩, ⟨0.0, 0.0, 0.0⟩⟩,
    refAt := fun _ => .ok ⟨0.0, 0.0, 0.0⟩ }

/-- A two-object batch in which the first object's reference lookup
fails. -/
def c7_sats : List (SatObj F64) := [c7_fail_sat, c7_ok_sat]

/-- C7 counterexample: a failure of the reference-propagator lookup for
one object aborts the whole batch.  For the concrete two-object batch
`c7_sats`, where the first object's lookup raises and the second object's
lookup would succeed, the run terminates with the uncaught exception
(`Except.error`): it does not return a consolidated result, the remaining
object's rows are not produced, and nothing is marked unavailable — the
source has no `try/except` around the reference query. -/
theorem C7_counterexample_batch_aborted :
    run_multi_object_simulation_and_validate (60.0 : F64) 1 c7_sats =
      .error RunError.refFailure := rfl

/-- C7 (amended): a failure of one object's reference-propagator lookup
(at any queried sample index `k ≤ num_steps`) aborts the entire batch: the
exception propagates out of `run_multi_object_simulation_and_validate`,
which returns no consolidated result at all; no per-object isolation or
unavailable-marking exists in the code. -/
theorem C7_amended_ref_failure_aborts {α : Type} [Add α] [Sub α] [Neg α] [Mul α]
    [Div α] [Pow α ℕ] [OfScientific α] [NatCast α] [SqrtOp α]
    (delta_t : α) (num_steps : Nat) (sats : List (SatObj α)) (sat : SatObj α)
    (k : Nat) (hmem : sat ∈ sats) (hk : k ≤ num_steps)
    (hfail : sat.refAt k = .error ()) :
    run_multi_object_simulation_and_validate delta_t num_steps sats =
      .error RunError.refFailure := by
  have h1 := ref_history_error sat num_steps k hk hfail
  have h2 := sim_loop_error delta_t num_steps sats sat hmem h1
  simp only [run_multi_object_simulation_and_validate, h2]

/-- Witness for C7 (amended) at the concrete batch `c7_sats`, failing
object `c7_fail_sat`, sample index `0`. -/
theorem C7_amended_ref_failure_aborts_witness :
    c7_fail_sat ∈ c7_sats ∧ 0 ≤ 1 ∧ c7_fail_sat.refAt 0 = .error () ∧
    run_multi_object_simulation_and_validate (60.0 : F64) 1 c7_sats =
      .error RunError.refFailure :=
  ⟨List.mem_cons_self _ _, Nat.zero_le 1, rfl,
    C7_amended_ref_failure_aborts (60.0 : F64) 1 c7_sats c7_fail_sat 0
      (List.mem_cons_self _ _) (Nat.zero_le 1) rfl⟩

/-- A concrete object whose propagated trajectory is divergent: its state
is the zero vector, so the force model divides by zero and every
trajectory row after the initial one has all-`nan` (non-finite)
positions.  Its reference lookups succeed. -/
def c8_div_sat : SatObj F64 :=
  { name := "OBJ-DIV", satnum := 7,
    state0 := ⟨⟨0.0, 0.0, 0.0⟩, ⟨0.0, 0.0, 0.0⟩⟩,
    refAt := fun _ => .ok ⟨0.0, 0.0, 0.0⟩ }

/-- A second divergent object, to show the batch still completes for the
other entries. -/
def c8_second_sat : SatObj F64 :=
  { name := "OBJ-B", satnum := 8,
    state0 := ⟨⟨0.0, 0.0, 0.0⟩, ⟨0.0, 0.0, 0.0⟩⟩,
    refAt := fun _ => .ok ⟨0.0, 0.0, 0.0⟩ }

/-- The consolidated rows the orchestrator returns for the single-object
divergent batch `[c8_div_sat]`. -/
def c8_rows : List (ResultRow F64) :=
  match run_multi_object_simulation_and_validate (60.0 : F64) 1 [c8_div_sat] with
  | .ok rows => rows
  | .error _ => []

/-- C8 counterexample: the orchestrator performs no divergence detection.
For the concrete batch `[c8_div_sat]`, whose propagated trajectory has a
non-finite (all-`nan`) position from step 1 on, the run succeeds
(`Except.ok`) and the divergent sample appears verbatim in the
consolidated result — the result schema (`ResultRow`) has no anomaly flag
at all, so nothing is surfaced: the divergent trajectory is silently
included, contradicting the claim. -/
theorem C8_counterexample_divergence_not_flagged :
    run_multi_object_simulation_and_validate (60.0 : F64) 1 [c8_div_sat] = .ok c8_rows ∧
    (c8_rows[1]?).map (fun row => (row.rx, row.ry, row.rz)) =
      some (F64.nan, F64.nan, F64.nan) := by
  exact ⟨rfl, rfl⟩

/-- The consolidated rows for the two-object divergent batch. -/
def c8_pair_rows : List (ResultRow F64) :=
  match run_multi_object_simulation_and_validate (60.0 : F64) 1 [c8_div_sat, c8_second_sat] with
  | .ok rows => rows
  | .error _ => []

/-- C8 (amended): `run_multi_object_simulation_and_validate` performs no
divergence detection: when an object's propagated trajectory contains
non-finite positions the run still succeeds, the divergent samples are
included in the consolidated result verbatim and unflagged (the result
schema has no anomaly field), and the batch is not corrupted — it
completes with all objects' rows present under their own identities. -/
theorem C8_amended_silent_inclusion :
    run_multi_object_simulation_and_validate (60.0 : F64) 1 [c8_div_sat, c8_second_sat] =
      .ok c8_pair_rows ∧
    c8_pair_rows.length = 2 * (1 + 1) ∧
    (c8_pair_rows[1]?).map (fun row => (row.satellite_name, row.rx, row.ry, row.rz)) =
      some ("OBJ-DIV", F64.nan, F64.nan, F64.nan) ∧
    (c8_pair_rows[3]?).map (fun row => (row.satellite_name, row.rx, row.ry, row.rz)) =
      some ("OBJ-B", F64.nan, F64.nan, F64.nan) := by
  exact ⟨rfl, rfl, rfl, rfl⟩

/-- C9 counterexample: the row-count claim is quantified over every batch,
but for the empty batch (`M = 0`) the source raises instead of returning a
0-row result: `all_results` is empty and
`pd.concat([], ignore_index=True)` raises
`ValueError: No objects to concatenate`, modelled as
`RunError.emptyConcat`.  The configured run parameters of the source
(`DELTA_T_SECONDS = 60`, `NUM_STEPS = 60`) are used. -/
theorem C9_counterexample_empty_batch :
    run_multi_object_simulation_and_validate (60 : ℝ) 60 [] =
      .error RunError.emptyConcat := rfl

/-- C9 (amended): for every batch that returns a consolidated result (in
particular the batch is nonempty and no reference lookup raised), the
result has exactly `M * (num_steps + 1)` rows for its `M` objects, and
every row carries the identity metadata (name and catalog identifier) of
an object of the batch together with an elapsed time `k * delta_t`
(`k ≤ num_steps`) and the full 6-component state `state_history k` of that
object; a batch of 0 objects instead raises in the consolidation step
(`pd.concat` with no objects) and returns no result. -/
theorem C9_amended_consolidated_rows {α : Type} [Add α] [Sub α] [Neg α] [Mul α]
    [Div α] [Pow α ℕ] [OfScientific α] [NatCast α] [SqrtOp α]
    (delta_t : α) (num_steps : Nat) (sats : List (SatObj α))
    (rows : List (ResultRow α))
    (h : run_multi_object_simulation_and_validate delta_t num_steps sats = .ok rows) :
    rows.length = sats.length * (num_steps + 1) ∧
    ∀ row ∈ rows, ∃ sat ∈ sats, row.satellite_name = sat.name ∧
      row.satellite_id = sat.satnum ∧
      ∃ k ≤ num_steps, row.time_step = (k : α) * delta_t ∧
        (⟨⟨row.rx, row.ry, row.rz⟩, ⟨row.vx, row.vy, row.vz⟩⟩ : State6 α) =
          state_history sat.state0 delta_t k := by
  simp only [run_multi_object_simulation_and_validate] at h
  cases hs : sim_loop delta_t num_steps sats with
  | error e => rw [hs] at h; cases h
  | ok dfs =>
    rw [hs] at h
    dsimp only at h
    by_cases hempty : dfs.isEmpty
    · rw [if_pos hempty] at h; cases h
    · rw [if_neg hempty] at h
      cases h
      obtain ⟨hlen, hmem⟩ := sim_loop_ok delta_t num_steps sats dfs hs
      constructor
      · rw [flatten_length_const dfs (num_steps + 1), hlen]
        intro df hdf
        obtain ⟨sat, _, refs, rfl⟩ := hmem df hdf
        exact object_rows_length delta_t num_steps sat refs
      · intro row hrow
        obtain ⟨df, hdf, hrowdf⟩ := List.mem_flatten.mp hrow
        obtain ⟨sat, hsat, refs, rfl⟩ := hmem df hdf
        obtain ⟨h1, h2, k, hk, h3, h4⟩ :=
          object_rows_mem delta_t num_steps sat refs row hrowdf
        exact ⟨sat, hsat, h1, h2, k, hk, h3, h4⟩

/-- A concrete one-object batch whose run succeeds (zero state, reference
lookups all succeed). -/
def c9_sat : SatObj F64 :=
  { name := "SAT-A", satnum := 1,
    state0 := ⟨⟨0.0, 0.0, 0.0⟩, ⟨0.0, 0.0, 0.0⟩⟩,
    refAt := fun _ => .ok ⟨0.0, 0.0, 0.0⟩ }

/-- The consolidated rows of the concrete one-object batch. -/
def c9_rows : List (ResultRow F64) :=
  match run_multi_object_simulation_and_validate (60.0 : F64) 1 [c9_sat] with
  | .ok rows => rows
  | .error _ => []

/-- Witness for C9 (amended) at the concrete batch `[c9_sat]` with
`num_steps = 1`: the run returns a consolidated result with
`1 * (1 + 1)` rows. -/
theorem C9_amended_consolidated_rows_witness :
    run_multi_object_simulation_and_validate (60.0 : F64) 1 [c9_sat] = .ok c9_rows ∧
    c9_rows.length = [c9_sat].length * (1 + 1) :=
  ⟨rfl, (C9_amended_consolidated_rows (60.0 : F64) 1 [c9_sat] c9_rows rfl).1⟩
